import Mathlib

/-!
Shallow embedding of the reminder scheduling and delivery engine of the
Telegram-Reminder-Bot repository.

Modelling conventions:
* Instants are `Int` milliseconds since the Unix epoch (JS `Date.getTime()`).
* The stored `timezone` string is modelled as a fixed UTC offset in
  milliseconds (`tzOffsetMs`); daylight-saving transitions are outside the
  model, so the moment calendar-day addition coincides with exact millisecond
  arithmetic for days and weeks, and month/year addition is calendar-aware
  with day-of-month clamping (the moment rule: Jan 31 + 1 month = Feb 28).
* Mongoose documents become Lean structures; `save()` becomes returning the
  updated record; `Date.now()` / `new Date()` become an explicit `now`
  argument threaded through each operation.
* MongoDB queries become decidable predicates over the record, and
  `.sort(\x7b priority: -1, scheduledTime: 1 \x7d)` becomes a stable sort by
  descending BSON string comparison of the stored priority string and then
  ascending scheduled time, exactly as MongoDB orders a string field.
-/

/-- Milliseconds in one minute. -/
def msPerMinute : Int := 60000

/-- Milliseconds in one day. -/
def msPerDay : Int := 86400000

/-- `priority` enum of the reminder schema (stored as a string in MongoDB). -/
inductive Priority
  | low
  | normal
  | high
  | urgent
  deriving Repr, DecidableEq

/-- The string stored in the database for each priority value; MongoDB sorts
the `priority` field by comparing these strings bytewise. -/
def Priority.str : Priority → String
  | .low => "low"
  | .normal => "normal"
  | .high => "high"
  | .urgent => "urgent"

/-- `recurringPattern` enum of the reminder schema. -/
inductive RecurringPattern
  | daily
  | weekly
  | monthly
  | yearly
  | custom
  deriving Repr, DecidableEq

/-- `status` enum of an `executionHistory` entry. -/
inductive ExecStatus
  | sent
  | failed
  | snoozed
  deriving Repr, DecidableEq

/-- One entry of `executionHistory`. -/
structure HistoryEntry where
  executedAt : Int
  status : ExecStatus
  error : Option String
  nextExecution : Option Int
  deriving Repr, DecidableEq

/-- The `Reminder` document (fields of the mongoose schema that the scheduler
core reads or writes; presentation-only fields are omitted). -/
structure Reminder where
  id : Nat
  userId : Nat
  title : String
  message : Option String
  scheduledTime : Int
  originalScheduledTime : Int
  isRecurring : Bool
  recurringPattern : Option RecurringPattern
  recurringInterval : Int
  maxRecurrences : Option Int
  recurrenceCount : Int
  isActive : Bool
  isCompleted : Bool
  completedAt : Option Int
  isSnoozed : Bool
  snoozeUntil : Option Int
  snoozeCount : Int
  priority : Priority
  tzOffsetMs : Int
  targetId : String
  executionHistory : List HistoryEntry
  deriving Repr, DecidableEq

/-! ### Calendar arithmetic for monthly/yearly recurrence

`moment.add(n, months/years)` keeps the local wall-clock time, advances
the civil month, and clamps the day-of-month to the length of the target month.
The civil-calendar conversions below implement the standard proleptic
Gregorian day-count algorithms. -/

/-- Whether a proleptic Gregorian year is a leap year. -/
def isLeapYear (y : Int) : Bool :=
  y % 4 == 0 && (y % 100 != 0 || y % 400 == 0)

/-- Number of days in month `m` (1–12) of year `y`. -/
def daysInMonth (y m : Int) : Int :=
  if m == 2 then (if isLeapYear y then 29 else 28)
  else if m == 4 || m == 6 || m == 9 || m == 11 then 30
  else 31

/-- Days since 1970-01-01 of the civil date `(y, m, d)` (m in 1–12). -/
def daysFromCivil (y m d : Int) : Int :=
  let y' := if m ≤ 2 then y - 1 else y
  let era := (if y' ≥ 0 then y' else y' - 399).ediv 400
  let yoe := y' - era * 400
  let mp := (m + 9).emod 12
  let doy := (153 * mp + 2).ediv 5 + d - 1
  let doe := yoe * 365 + yoe.ediv 4 - yoe.ediv 100 + doy
  era * 146097 + doe - 719468

/-- Civil date `(y, m, d)` of a day count since 1970-01-01. -/
def civilFromDays (z : Int) : Int × Int × Int :=
  let z' := z + 719468
  let era := (if z' ≥ 0 then z' else z' - 146096).ediv 146097
  let doe := z' - era * 146097
  let yoe := (doe - doe.ediv 1460 + doe.ediv 36524 - doe.ediv 146096).ediv 365
  let y := yoe + era * 400
  let doy := doe - (365 * yoe + yoe.ediv 4 - yoe.ediv 100)
  let mp := (5 * doy + 2).ediv 153
  let d := doy - (153 * mp + 2).ediv 5 + 1
  let m := if mp < 10 then mp + 3 else mp - 9
  (if m ≤ 2 then y + 1 else y, m, d)

/-- Add `n` calendar months to an instant, interpreted in a fixed-offset local
timezone, keeping the local time of day and clamping the day-of-month —
the moment month-addition rule. Yearly addition is month-addition by `12 * n`. -/
def addMonthsLocal (tzOffsetMs instant n : Int) : Int :=
  let localMs := instant + tzOffsetMs
  let day := localMs.ediv msPerDay
  let msOfDay := localMs.emod msPerDay
  let c := civilFromDays day
  let months := c.1 * 12 + (c.2.1 - 1) + n
  let y2 := months.ediv 12
  let m2 := months.emod 12 + 1
  let d2 := min c.2.2 (daysInMonth y2 m2)
  daysFromCivil y2 m2 d2 * msPerDay + msOfDay - tzOffsetMs

/-! ### Reminder instance methods (part_012 of the source) -/

/-- `reminderSchema.methods.snooze(minutes)`: marks the reminder snoozed until
`now + minutes` minutes and bumps `snoozeCount`. -/
def Reminder.snooze (r : Reminder) (now : Int) (minutes : Int) : Reminder :=
  { r with
    isSnoozed := true
    snoozeUntil := some (now + minutes * msPerMinute)
    snoozeCount := r.snoozeCount + 1 }

/-- `reminderSchema.methods.complete()`: unconditionally sets
`isCompleted = true`, stamps `completedAt` with the current time and
deactivates the reminder.  Note there is no already-completed guard. -/
def Reminder.complete (r : Reminder) (now : Int) : Reminder :=
  { r with
    isCompleted := true
    completedAt := some now
    isActive := false }

/-- `reminderSchema.methods.reschedule(newTime)`. -/
def Reminder.reschedule (r : Reminder) (newTime : Int) : Reminder :=
  { r with
    scheduledTime := newTime
    isSnoozed := false
    snoozeUntil := none }

/-- `reminderSchema.methods.addExecutionHistory(status, error, nextExecution)`:
pushes an entry, then keeps only the last 10 entries (`slice(-10)`) when the
list exceeds 10. -/
def Reminder.addExecutionHistory (r : Reminder) (now : Int) (status : ExecStatus)
    (error : Option String) (nextExecution : Option Int) : Reminder :=
  let h := r.executionHistory ++ [⟨now, status, error, nextExecution⟩]
  { r with
    executionHistory := if h.length > 10 then h.drop (h.length - 10) else h }

/-- `reminderSchema.methods.calculateNextRecurrence()`: the next occurrence
instant derived from the *scheduled* time of the fired record, or `none` for
non-recurring reminders and for the `custom` pattern (the default branch of the
switch). -/
def Reminder.calculateNextRecurrence (r : Reminder) : Option Int :=
  if !r.isRecurring then none
  else
    match r.recurringPattern with
    | some .daily => some (r.scheduledTime + r.recurringInterval * msPerDay)
    | some .weekly => some (r.scheduledTime + r.recurringInterval * 7 * msPerDay)
    | some .monthly => some (addMonthsLocal r.tzOffsetMs r.scheduledTime r.recurringInterval)
    | some .yearly => some (addMonthsLocal r.tzOffsetMs r.scheduledTime (12 * r.recurringInterval))
    | _ => none

/-- The successor document built by `createNextRecurrence`: every copied field
of the `new this.constructor(\x7b...\x7d)` call, with schema defaults for the
lifecycle fields that are not passed (`isActive := true`,
`isCompleted := false`, fresh history, no snooze). -/
def Reminder.mkSuccessor (r : Reminder) (newId : Nat) (nextTime : Int) : Reminder :=
  { id := newId
    userId := r.userId
    title := r.title
    message := r.message
    scheduledTime := nextTime
    originalScheduledTime := r.originalScheduledTime
    isRecurring := r.isRecurring
    recurringPattern := r.recurringPattern
    recurringInterval := r.recurringInterval
    maxRecurrences := r.maxRecurrences
    recurrenceCount := r.recurrenceCount + 1
    isActive := true
    isCompleted := false
    completedAt := none
    isSnoozed := false
    snoozeUntil := none
    snoozeCount := 0
    priority := r.priority
    tzOffsetMs := r.tzOffsetMs
    targetId := r.targetId
    executionHistory := [] }

/-- `reminderSchema.methods.createNextRecurrence()`: returns the updated
`this` together with the saved successor, or `none` when non-recurring, when
the pattern yields no next time, or when `maxRecurrences` is reached (in which
case `this` is deactivated and saved). -/
def Reminder.createNextRecurrence (r : Reminder) (newId : Nat) : Reminder × Option Reminder :=
  if !r.isRecurring then (r, none)
  else
    match r.calculateNextRecurrence with
    | none => (r, none)
    | some nextTime =>
      match r.maxRecurrences with
      | some m =>
        if r.recurrenceCount ≥ m then ({ r with isActive := false }, none)
        else (r, some (r.mkSuccessor newId nextTime))
      | none => (r, some (r.mkSuccessor newId nextTime))

/-! ### The due query (`findReadyToExecute`) -/

/-- The filter of `Reminder.findReadyToExecute()`:
`isActive && !isCompleted && scheduledTime ≤ now` and the `$or` of
`isSnoozed = false` or `isSnoozed = true ∧ snoozeUntil ≤ now`.  A missing
`snoozeUntil` does not match the `$lte` date comparison (BSON type
bracketing), hence the `Option` match. -/
def isReadyToExecute (now : Int) (r : Reminder) : Bool :=
  r.isActive && !r.isCompleted && r.scheduledTime ≤ now &&
    (r.isSnoozed == false ||
      (r.isSnoozed == true &&
        match r.snoozeUntil with
        | some u => u ≤ now
        | none => false))

/-- Lexicographic strict comparison of character lists — the BSON simple
binary collation under which MongoDB compares string fields (identical to
codepoint order on the ASCII priority strings). -/
def charListLt : List Char → List Char → Bool
  | [], [] => false
  | [], _ :: _ => true
  | _ :: _, [] => false
  | a :: as, b :: bs =>
    if a < b then true else if b < a then false else charListLt as bs

/-- Strict bytewise string comparison (`strLtB a b` iff `a` sorts before `b`). -/
def strLtB (a b : String) : Bool :=
  charListLt a.toList b.toList

/-- The MongoDB sort key comparison for
`.sort(\x7b priority: -1, scheduledTime: 1 \x7d)`: descending bytewise string
comparison of the stored priority string, then ascending scheduled time. -/
def reminderSortLE (a b : Reminder) : Bool :=
  if a.priority.str = b.priority.str then a.scheduledTime ≤ b.scheduledTime
  else strLtB b.priority.str a.priority.str

/-- Insert into a list sorted by `le` (stable insertion). -/
def insertSorted (le : Reminder → Reminder → Bool) (x : Reminder) :
    List Reminder → List Reminder
  | [] => [x]
  | y :: ys => if le x y && !le y x then x :: y :: ys else y :: insertSorted le x ys

/-- Stable insertion sort by `le`. -/
def sortByLE (le : Reminder → Reminder → Bool) : List Reminder → List Reminder
  | [] => []
  | x :: xs => insertSorted le x (sortByLE le xs)

/-- `Reminder.findReadyToExecute()` over a store modelled as a list of
documents: filter by the readiness query, then sort by the
`(priority: -1, scheduledTime: 1)` key. -/
def findReadyToExecute (now : Int) (store : List Reminder) : List Reminder :=
  sortByLE reminderSortLE (store.filter (isReadyToExecute now))

/-! ### SchedulerService (src/services/schedulerService.js)

Delivery through the Telegram transport is modelled by a boolean `sendOk`
input: `true` when `bot.telegram.sendMessage` resolves, `false` when it
throws.  Each operation returns the updated fired record and the optional
successor record inserted into the store. -/

/-- Error message recorded when the transport send throws (the concrete JS
message text is irrelevant to the model; one fixed marker is used). -/
def sendErrMsg : String := "send error"

/-- `handleReminderCompletion(reminder)`: for a recurring reminder first
create the next recurrence, then mark the current record completed.  Note
there is no guard against the record being already completed. -/
def handleReminderCompletion (now : Int) (r : Reminder) (newId : Nat) :
    Reminder × Option Reminder :=
  if r.isRecurring then
    let p := r.createNextRecurrence newId
    (p.1.complete now, p.2)
  else (r.complete now, none)

/-- `sendReminderMessage(telegramId, message, reminder)`: on transport success
appends a `sent` history entry; on transport failure appends a `failed` entry
and rethrows (the `Bool` result is whether the call completed). -/
def sendReminderMessage (now : Int) (r : Reminder) (sendOk : Bool) :
    Reminder × Bool :=
  if sendOk then (r.addExecutionHistory now .sent none none, true)
  else (r.addExecutionHistory now .failed (some sendErrMsg) none, false)

/-- `executeReminder(reminder)`: skips inactive/banned users; otherwise sends
the message and on success runs the completion path.  When the send throws,
the outer catch appends a second `failed` history entry — the
`isActive`/`isCompleted` flags are left untouched, so the next poll tick finds
it due again. -/
def executeReminder (now : Int) (r : Reminder) (userOk : Bool) (sendOk : Bool)
    (newId : Nat) : Reminder × Option Reminder :=
  if !userOk then (r, none)
  else
    let p := sendReminderMessage now r sendOk
    if p.2 then handleReminderCompletion now p.1 newId
    else (p.1.addExecutionHistory now .failed (some sendErrMsg) none, none)

/-- The delivery-and-successor chain of a recurring reminder: fire the head
record (delivery succeeding), collect the completed record, and continue on
the successor while one is created.  `fuel` bounds the recursion depth. -/
def recurrenceChain (fuel : Nat) (now : Int) (r : Reminder) (nextId : Nat) :
    List Reminder :=
  match fuel with
  | 0 => [r]
  | fuel + 1 =>
    let p := handleReminderCompletion now r nextId
    match p.2 with
    | none => [p.1]
    | some s => p.1 :: recurrenceChain fuel now s (nextId + 1)

/-- `cleanupOldReminders()`: `deleteMany` of completed reminders whose
`completedAt` is before `now` minus 30 days (`cutoffDate.setDate(getDate() -
30)`, exact 30-day arithmetic under a fixed-offset timezone).  A document with
no `completedAt` is not matched by the `$lt` date comparison. -/
def cleanupOldReminders (now : Int) (store : List Reminder) : List Reminder :=
  store.filter fun r =>
    !(r.isCompleted &&
      match r.completedAt with
      | some t => t < now - 30 * msPerDay
      | none => false)

/-! ### Circuit breaker (src/bot/utils/globalErrorHandler.js) -/

/-- The three breaker states of the `CircuitBreaker` class. -/
inductive CBState
  | closed
  | open
  | halfOpen
  deriving Repr, DecidableEq

/-- The `CircuitBreaker` instance state. -/
structure CircuitBreaker where
  threshold : Nat
  cooldownMs : Int
  failureCount : Nat
  lastFailureTime : Option Int
  state : CBState
  deriving Repr, DecidableEq

/-- `circuitBreakers.telegram = new CircuitBreaker(telegram_api, 5, 30000)`. -/
def telegramBreaker : CircuitBreaker :=
  { threshold := 5
    cooldownMs := 30000
    failureCount := 0
    lastFailureTime := none
    state := .closed }

/-- Outcome of one `execute(operation)` call. -/
inductive CBResult
  | failFast
  | opSuccess
  | opFailure
  deriving Repr, DecidableEq

/-- `onSuccess()`: reset the failure count and close the breaker. -/
def CircuitBreaker.onSuccess (cb : CircuitBreaker) : CircuitBreaker :=
  { cb with failureCount := 0, state := .closed }

/-- `onFailure()`: bump the failure count, stamp the failure time, and open
the breaker once the count reaches the threshold. -/
def CircuitBreaker.onFailure (cb : CircuitBreaker) (now : Int) : CircuitBreaker :=
  let fc := cb.failureCount + 1
  { cb with
    failureCount := fc
    lastFailureTime := some now
    state := if fc ≥ cb.threshold then .open else cb.state }

/-- `execute(operation)`: while OPEN, fail fast unless strictly more than the
cool-down has elapsed since the last failure, in which case transition to
HALF_OPEN and attempt the operation; otherwise run the operation and record
its outcome.  JS computes `Date.now() - null` as `now - 0`, hence the `none`
branch. -/
def CircuitBreaker.execute (cb : CircuitBreaker) (now : Int) (opSucceeds : Bool) :
    CBResult × CircuitBreaker :=
  let lastF : Int := match cb.lastFailureTime with | some t => t | none => 0
  if cb.state = .open ∧ ¬(now - lastF > cb.cooldownMs) then (.failFast, cb)
  else
    let cb1 := if cb.state = .open then { cb with state := .halfOpen } else cb
    if opSucceeds then (.opSuccess, cb1.onSuccess)
    else (.opFailure, cb1.onFailure now)

/-- The breaker state after five consecutive failed calls starting from the
fresh telegram breaker (failure times `t1 … t5`). -/
def afterFiveFailures (t1 t2 t3 t4 t5 : Int) : CircuitBreaker :=
  (((((telegramBreaker.execute t1 false).2.execute t2 false).2.execute
      t3 false).2.execute t4 false).2.execute t5 false).2

/-! ### Safe message edit (safeEditMessageText / handleEditError) -/

/-- A Telegram API error as seen by `handleEditError`: the numeric
`error.code` (or response status) and the `description`/`message` text. -/
structure EditError where
  code : Option Nat
  description : String
  deriving Repr, DecidableEq

/-- The control-flow outcome chosen by `handleEditError`. -/
inductive EditDecision
  | treatAsSuccess
  | reportFailure
  | retryForceEdit
  | fallbackToReply
  deriving Repr, DecidableEq

/-- JS `string.includes(needle)`. -/
def strIncludes (hay needle : String) : Bool :=
  decide (List.IsInfix needle.toList hay.toList)

/-- `handleEditError(ctx, error, ...)` as a decision table.  `retryNoParseOk`
is the outcome of the nested retry-without-`parse_mode` attempt in the
entity-parsing branch.
* 400 "message is not modified" → return `true` (success);
* 400 "message to edit not found" → `fallbackToReply`;
* 400 parse-entities error → retry without `parse_mode`, falling back on
  failure;
* 403 → return `false` (no fallback message is sent);
* 429 → sleep and re-invoke `safeEditMessageText` with `forceEdit`;
* anything else (including other 400s, which hit the `break`) →
  `fallbackToReply`. -/
def handleEditError (e : EditError) (retryNoParseOk : Bool) : EditDecision :=
  if e.code = some 400 then
    if strIncludes e.description "message is not modified" then .treatAsSuccess
    else if strIncludes e.description "message to edit not found" then .fallbackToReply
    else if strIncludes e.description "can\x27t parse entities" then
      (if retryNoParseOk then .treatAsSuccess else .fallbackToReply)
    else .fallbackToReply
  else if e.code = some 403 then .reportFailure
  else if e.code = some 429 then .retryForceEdit
  else .fallbackToReply

/-- The maximal whitespace-free words of a character list, in order
(`acc` carries the reversed current word). -/
def wordsAux : List Char → List Char → List (List Char)
  | [], acc => if acc = [] then [] else [acc.reverse]
  | c :: cs, acc =>
    if c.isWhitespace then
      (if acc = [] then wordsAux cs [] else acc.reverse :: wordsAux cs [])
    else wordsAux cs (c :: acc)

/-- Join words with single spaces. -/
def joinWords : List (List Char) → List Char
  | [] => []
  | [w] => w
  | w :: ws => w ++ Char.ofNat 32 :: joinWords ws

/-- JS text trim followed by collapsing each whitespace run to a single
space: the words of the text joined by single spaces. -/
def normalizeText (s : String) : String :=
  String.mk (joinWords (wordsAux s.toList []))

/-- The inputs `safeEditMessageText` compares before issuing an edit: the new
text and keyboard versus the text/markup of the current message and the per-message
cache of the last-sent content.  Markups are compared via their JSON
serialisation, modelled as opaque strings. -/
structure EditContext where
  forceEdit : Bool
  newText : String
  currentText : String
  cachedText : Option String
  newMarkup : Option String
  currentMarkup : String
  deriving Repr, DecidableEq

/-- The duplicate-content check of `safeEditMessageText`: the edit is skipped
(returning success with no network call) iff not forced, the normalised new
text differs from neither the current nor the cached text, and the keyboard is
absent or unchanged. -/
def shouldSkipEdit (c : EditContext) : Bool :=
  let newN := normalizeText c.newText
  let curN := normalizeText c.currentText
  let cachedN := match c.cachedText with | some t => normalizeText t | none => ""
  let isTextDifferent := newN ≠ curN && newN ≠ cachedN
  let isMarkupDifferent :=
    match c.newMarkup with
    | some m => m ≠ c.currentMarkup
    | none => false
  !c.forceEdit && !isTextDifferent && !isMarkupDifferent

/-- Result of one `safeEditMessageText` call. -/
inductive EditAttemptResult
  | skippedSuccess
  | editedSuccess
  | errorHandled (d : EditDecision)
  deriving Repr, DecidableEq

/-- `safeEditMessageText`: skip identical content (reporting success without
touching the network); otherwise issue the edit (`apiError = none` when the
API call succeeds) and hand any error to `handleEditError`. -/
def safeEditMessageText (c : EditContext) (apiError : Option EditError)
    (retryNoParseOk : Bool) : EditAttemptResult :=
  if shouldSkipEdit c then .skippedSuccess
  else
    match apiError with
    | none => .editedSuccess
    | some e => .errorHandled (handleEditError e retryNoParseOk)

/-! ### Concrete records used by counterexamples and witnesses -/

/-- A plain active one-shot reminder. -/
def baseReminder : Reminder :=
  { id := 1
    userId := 7
    title := "Pay bills"
    message := none
    scheduledTime := 1000
    originalScheduledTime := 1000
    isRecurring := false
    recurringPattern := none
    recurringInterval := 1
    maxRecurrences := none
    recurrenceCount := 0
    isActive := true
    isCompleted := false
    completedAt := none
    isSnoozed := false
    snoozeUntil := none
    snoozeCount := 0
    priority := .normal
    tzOffsetMs := 0
    targetId := "42"
    executionHistory := [] }

/-- A fresh daily recurring reminder with `maxRecurrences = 3`. -/
def rMax3 : Reminder :=
  { baseReminder with
    isRecurring := true
    recurringPattern := some .daily
    maxRecurrences := some 3 }

/-- A due reminder with priority `high`. -/
def rHighDue : Reminder :=
  { baseReminder with id := 2, priority := .high }

/-- A due reminder with priority `normal`. -/
def rNormalDue : Reminder :=
  { baseReminder with id := 3, priority := .normal }

/-- A daily recurring reminder without a recurrence cap. -/
def rDailyRec : Reminder :=
  { baseReminder with isRecurring := true, recurringPattern := some .daily }

/-- A daily recurring reminder with interval 2 and no cap. -/
def rDaily2 : Reminder :=
  { baseReminder with
    isRecurring := true
    recurringPattern := some .daily
    recurringInterval := 2 }

/-- Ten failed execution-history entries (the history cap worth of failures). -/
def histTenFailed : List HistoryEntry :=
  List.replicate 10 ⟨0, .failed, some "err", none⟩

/-- A due reminder whose history is already ten straight failures. -/
def rExhausted : Reminder :=
  { baseReminder with executionHistory := histTenFailed }

/-- An edit request whose new text matches the current message up to
whitespace, with no keyboard change and no forced edit. -/
def ctxSame : EditContext :=
  { forceEdit := false
    newText := "hello  world"
    currentText := " hello world "
    cachedText := none
    newMarkup := none
    currentMarkup := "" }

/-! ## Theorems -/

/-- Capping rule of the execution log: keeping the last 10 entries when the
list exceeds 10 yields `min length 10` entries. -/
theorem capList_length (h : List HistoryEntry) :
    (if h.length > 10 then h.drop (h.length - 10) else h).length = min h.length 10 := by
  split
  · rw [List.length_drop]; omega
  · omega

/-- Appending an execution-history entry yields `min (previous + 1) 10`
entries. -/
theorem addExecutionHistory_length (r : Reminder) (now : Int) (st : ExecStatus)
    (err : Option String) (ne : Option Int) :
    (r.addExecutionHistory now st err ne).executionHistory.length =
      min (r.executionHistory.length + 1) 10 := by
  have h := capList_length (r.executionHistory ++ [HistoryEntry.mk now st err ne])
  simpa [Reminder.addExecutionHistory, List.length_append] using h

/-- The retained history after an append is a suffix of the full appended
log (most recent entries, oldest dropped first). -/
theorem addExecutionHistory_suffix (r : Reminder) (now : Int) (st : ExecStatus)
    (err : Option String) (ne : Option Int) :
    List.IsSuffix (r.addExecutionHistory now st err ne).executionHistory
      (r.executionHistory ++ [⟨now, st, err, ne⟩]) := by
  show List.IsSuffix
    (if (r.executionHistory ++ [HistoryEntry.mk now st err ne]).length > 10 then
      (r.executionHistory ++ [HistoryEntry.mk now st err ne]).drop
        ((r.executionHistory ++ [HistoryEntry.mk now st err ne]).length - 10)
     else r.executionHistory ++ [HistoryEntry.mk now st err ne])
    (r.executionHistory ++ [HistoryEntry.mk now st err ne])
  split
  · exact List.drop_suffix _ _
  · exact List.suffix_refl _

/-- Claim C9 (confirmed): after every `addExecutionHistory` call the
execution history holds at most 10 entries — exactly `min (previous + 1) 10` —
and the retained entries are a suffix of the previous log with the new entry
appended, i.e. the most recent entries in order, the oldest ones dropped. -/
theorem executionHistory_capped (r : Reminder) (now : Int) (st : ExecStatus)
    (err : Option String) (ne : Option Int) :
    (r.addExecutionHistory now st err ne).executionHistory.length ≤ 10 ∧
    (r.addExecutionHistory now st err ne).executionHistory.length =
      min (r.executionHistory.length + 1) 10 ∧
    List.IsSuffix (r.addExecutionHistory now st err ne).executionHistory
      (r.executionHistory ++ [⟨now, st, err, ne⟩]) := by
  refine ⟨?_, addExecutionHistory_length r now st err ne,
    addExecutionHistory_suffix r now st err ne⟩
  rw [addExecutionHistory_length]
  omega

/-- Claim C10 (confirmed): the daily cleanup run hard-deletes exactly the
reminders that are completed with a `completedAt` more than 30 days before the
run, and keeps every other record unchanged and in order (active, soft-deleted
or recently completed reminders survive, as do completed records with no
`completedAt` stamp, which the `$lt` date comparison does not match). -/
theorem cleanup_hard_deletes_old_completed (now : Int) (store : List Reminder) :
    List.Sublist (cleanupOldReminders now store) store ∧
    ∀ r, r ∈ cleanupOldReminders now store ↔
      (r ∈ store ∧
        ¬(r.isCompleted = true ∧ ∃ t, r.completedAt = some t ∧ now - t > 30 * msPerDay)) := by
  constructor
  · exact List.filter_sublist _
  · intro r
    rw [cleanupOldReminders, List.mem_filter]
    cases hc : r.completedAt with
    | none => simp [hc]
    | some t =>
      simp only [hc, Bool.not_eq_true', Bool.and_eq_false_iff, msPerDay,
        Option.some.injEq, decide_eq_false_iff_not, not_lt, Bool.not_eq_true]
      constructor
      · rintro ⟨hm, hb⟩
        refine ⟨hm, ?_⟩
        rintro ⟨hcomp, u, hu, hgt⟩
        cases hu
        rcases hb with h | h
        · rw [hcomp] at h; cases h
        · omega
      · rintro ⟨hm, hn⟩
        refine ⟨hm, ?_⟩
        by_cases hcomp : r.isCompleted
        · right
          by_contra hlt
          exact hn ⟨hcomp, t, rfl, by omega⟩
        · left; simp [hcomp]

/-- Claim C2 (code bug): the due query sorts by the stored priority *string*
descending, which orders lexicographically `urgent > normal > low > high` —
so a due `normal` reminder is returned before a due `high` one, contradicting
the intended `urgent, high, normal, low` dispatch order.  Both records satisfy
the due predicate and each appears exactly once, but the order is wrong. -/
theorem findDue_misorders_high_below_normal :
    isReadyToExecute 1000 rHighDue = true ∧
    isReadyToExecute 1000 rNormalDue = true ∧
    findReadyToExecute 1000 [rHighDue, rNormalDue] = [rNormalDue, rHighDue] ∧
    strLtB (Priority.high.str) (Priority.normal.str) = true := by decide

/-- Claim C3 (code bug): the completion path is not idempotent.  `complete()`
has no already-completed guard and `handleReminderCompletion` spawns a
recurrence before checking anything, so running the completion path twice on
the same recurring reminder creates a second successor record with the same
scheduled time and recurrence count as the first — a duplicate — and
overwrites `completedAt` with the later instant, leaving the state different
from the state after the first run. -/
theorem completion_path_not_idempotent :
    (handleReminderCompletion 2000 rDailyRec 5).2.isSome = true ∧
    (handleReminderCompletion 3000 (handleReminderCompletion 2000 rDailyRec 5).1 6).2.isSome
      = true ∧
    ((handleReminderCompletion 3000 (handleReminderCompletion 2000 rDailyRec 5).1 6).2.map
        (fun s => (s.scheduledTime, s.recurrenceCount))) =
      ((handleReminderCompletion 2000 rDailyRec 5).2.map
        (fun s => (s.scheduledTime, s.recurrenceCount))) ∧
    (handleReminderCompletion 3000 (handleReminderCompletion 2000 rDailyRec 5).1 6).1 ≠
      (handleReminderCompletion 2000 rDailyRec 5).1 := by decide

/-- Claim C1 (counterexample): for a fresh daily reminder with
`maxRecurrences = 3` (initial `recurrenceCount = 0`, as created by the remind
command), the delivery-and-successor process fires four instances — counts
0, 1, 2, 3 — not three: the check `recurrenceCount >= maxRecurrences` only
stops the instance whose count already equals 3, so the third fire (count 2)
still creates a successor. -/
theorem maxRecurrences_three_fires_four :
    (recurrenceChain 10 5000 rMax3 2).map (fun x => x.recurrenceCount) = [0, 1, 2, 3] ∧
    (recurrenceChain 10 5000 rMax3 2).length ≠ 3 := by decide

/-- Claim C1 (amended): a fresh daily recurring reminder with
`maxRecurrences = 3` produces exactly 4 fired instances, with recurrence
counts 0, 1, 2, 3 — the original plus three successors; only the fire whose
`recurrenceCount` equals `maxRecurrences` creates no successor, so no record
is created after the 4th fire. -/
theorem maxRecurrences_three_total_fires (r : Reminder) (now : Int) (nid : Nat)
    (hrec : r.isRecurring = true)
    (hpat : r.recurringPattern = some .daily)
    (hmax : r.maxRecurrences = some 3)
    (hcount : r.recurrenceCount = 0) :
    (recurrenceChain 10 now r nid).map (fun x => x.recurrenceCount) = [0, 1, 2, 3] ∧
    (recurrenceChain 10 now r nid).length = 4 := by
  simp [recurrenceChain, handleReminderCompletion, Reminder.createNextRecurrence,
    Reminder.calculateNextRecurrence, Reminder.mkSuccessor, Reminder.complete,
    hrec, hpat, hmax, hcount]

/-- Witness for the amended C1 theorem at a concrete reminder. -/
theorem maxRecurrences_three_total_fires_witness :
    rMax3.isRecurring = true ∧ rMax3.recurringPattern = some .daily ∧
    rMax3.maxRecurrences = some 3 ∧ rMax3.recurrenceCount = 0 ∧
    (recurrenceChain 10 5000 rMax3 2).map (fun x => x.recurrenceCount) = [0, 1, 2, 3] ∧
    (recurrenceChain 10 5000 rMax3 2).length = 4 :=
  ⟨rfl, rfl, rfl, rfl,
    (maxRecurrences_three_total_fires rMax3 5000 2 rfl rfl rfl rfl).1,
    (maxRecurrences_three_total_fires rMax3 5000 2 rfl rfl rfl rfl).2⟩

/-- Claim C4 (confirmed): when a daily recurring reminder with interval 2
completes (and its recurrence cap, if any, is not yet reached), the successor
is scheduled exactly 2 days after the fired scheduled time,
`recurrenceCount` increments by exactly 1, `originalScheduledTime` is
preserved, and the fired record ends completed. -/
theorem daily_interval_two_successor (r : Reminder) (now : Int) (nid : Nat)
    (hrec : r.isRecurring = true)
    (hpat : r.recurringPattern = some .daily)
    (hint : r.recurringInterval = 2)
    (hmax : ∀ m, r.maxRecurrences = some m → r.recurrenceCount < m) :
    ∃ s, (handleReminderCompletion now r nid).2 = some s ∧
      s.scheduledTime = r.scheduledTime + 2 * msPerDay ∧
      s.recurrenceCount = r.recurrenceCount + 1 ∧
      s.originalScheduledTime = r.originalScheduledTime ∧
      (handleReminderCompletion now r nid).1.isCompleted = true := by
  refine ⟨r.mkSuccessor nid (r.scheduledTime + r.recurringInterval * msPerDay), ?_⟩
  cases hm : r.maxRecurrences with
  | none =>
    simp [handleReminderCompletion, Reminder.createNextRecurrence,
      Reminder.calculateNextRecurrence, Reminder.mkSuccessor, Reminder.complete,
      hrec, hpat, hint, hm]
  | some m =>
    have hlt := hmax m hm
    simp [handleReminderCompletion, Reminder.createNextRecurrence,
      Reminder.calculateNextRecurrence, Reminder.mkSuccessor, Reminder.complete,
      hrec, hpat, hint, hm, not_le.mpr hlt]

/-- Witness for the C4 theorem at a concrete reminder. -/
theorem daily_interval_two_successor_witness :
    rDaily2.isRecurring = true ∧ rDaily2.recurringPattern = some .daily ∧
    rDaily2.recurringInterval = 2 ∧
    ∃ s, (handleReminderCompletion 9000 rDaily2 7).2 = some s ∧
      s.scheduledTime = rDaily2.scheduledTime + 2 * msPerDay ∧
      s.recurrenceCount = rDaily2.recurrenceCount + 1 ∧
      s.originalScheduledTime = rDaily2.originalScheduledTime ∧
      (handleReminderCompletion 9000 rDaily2 7).1.isCompleted = true :=
  ⟨rfl, rfl, rfl,
    daily_interval_two_successor rDaily2 9000 7 rfl rfl rfl (fun m h => by cases h)⟩

/-- Claim C5 (confirmed): snoozing an active reminder by `n > 0` minutes at
instant `now` sets `isSnoozed` and `snoozeUntil = now + n` minutes (which is
never before the request instant); the due query then excludes the reminder at
every instant strictly before `snoozeUntil` and includes it again at every
instant from `snoozeUntil` on, provided it is otherwise due. -/
theorem snooze_roundtrip (r : Reminder) (now : Int) (n : Int)
    (hn : 0 < n) (hact : r.isActive = true) (hcomp : r.isCompleted = false) :
    (r.snooze now n).isSnoozed = true ∧
    (r.snooze now n).snoozeUntil = some (now + n * msPerMinute) ∧
    now ≤ now + n * msPerMinute ∧
    (∀ t, t < now + n * msPerMinute → isReadyToExecute t (r.snooze now n) = false) ∧
    (∀ t, now + n * msPerMinute ≤ t → r.scheduledTime ≤ t →
      isReadyToExecute t (r.snooze now n) = true) := by
  have hmin : (0 : Int) < msPerMinute := by decide
  refine ⟨rfl, rfl, by nlinarith, ?_, ?_⟩
  · intro t ht
    simp [isReadyToExecute, Reminder.snooze, not_le.mpr ht]
  · intro t ht hsched
    simp [isReadyToExecute, Reminder.snooze, hact, hcomp, ht, hsched]

/-- Witness for the C5 theorem at a concrete reminder. -/
theorem snooze_roundtrip_witness :
    (0 : Int) < 15 ∧ baseReminder.isActive = true ∧ baseReminder.isCompleted = false ∧
    ((baseReminder.snooze 2000 15).isSnoozed = true ∧
     (baseReminder.snooze 2000 15).snoozeUntil = some (2000 + 15 * msPerMinute) ∧
     (2000 : Int) ≤ 2000 + 15 * msPerMinute ∧
     (∀ t, t < 2000 + 15 * msPerMinute →
        isReadyToExecute t (baseReminder.snooze 2000 15) = false) ∧
     (∀ t, 2000 + 15 * msPerMinute ≤ t → baseReminder.scheduledTime ≤ t →
        isReadyToExecute t (baseReminder.snooze 2000 15) = true)) ∧
    isReadyToExecute 2500 (baseReminder.snooze 2000 15) = false ∧
    isReadyToExecute 902000 (baseReminder.snooze 2000 15) = true :=
  ⟨by decide, rfl, rfl, snooze_roundtrip baseReminder 2000 15 (by decide) rfl rfl,
    (snooze_roundtrip baseReminder 2000 15 (by decide) rfl rfl).2.2.2.1 2500 (by decide),
    (snooze_roundtrip baseReminder 2000 15 (by decide) rfl rfl).2.2.2.2 902000 (by decide)
      (by decide)⟩

/-- Claim C6 (counterexample): a reminder whose execution history is already
ten straight failures — the cap, i.e. the maximum retry count the claim says
is tracked via history length — is still matched by the due query, and after
one more failed delivery it is still active and still due: nothing in the code
ever abandons a transiently failing reminder. -/
theorem exhausted_failures_never_abandoned :
    rExhausted.executionHistory.length = 10 ∧
    (∀ e ∈ rExhausted.executionHistory, e.status = .failed) ∧
    isReadyToExecute 5000 rExhausted = true ∧
    (executeReminder 5000 rExhausted true false 9).1.isActive = true ∧
    isReadyToExecute 6000 (executeReminder 5000 rExhausted true false 9).1 = true := by
  decide

/-- Claim C6 (amended): when delivery fails, no in-tick retry happens; the
failure is recorded in the execution history — twice, once by the catch in
`sendReminderMessage` and once by the catch in `executeReminder` — the
reminder keeps all its scheduling state (`isActive`, `isCompleted`,
`scheduledTime`, snooze fields) unchanged, so every later poll tick finds it
due again, with no bound on total attempts and no abandonment: the due query
never consults the history. -/
theorem failed_delivery_retried_forever (r : Reminder) (now : Int) (newId : Nat) :
    (executeReminder now r true false newId).2 = none ∧
    (executeReminder now r true false newId).1.isActive = r.isActive ∧
    (executeReminder now r true false newId).1.isCompleted = r.isCompleted ∧
    (executeReminder now r true false newId).1.scheduledTime = r.scheduledTime ∧
    (executeReminder now r true false newId).1.isSnoozed = r.isSnoozed ∧
    (executeReminder now r true false newId).1.snoozeUntil = r.snoozeUntil ∧
    (executeReminder now r true false newId).1.executionHistory.length =
      min (r.executionHistory.length + 2) 10 ∧
    (∀ t, isReadyToExecute t (executeReminder now r true false newId).1 =
      isReadyToExecute t r) := by
  have hlen :
      (executeReminder now r true false newId).1.executionHistory.length =
        min (r.executionHistory.length + 2) 10 := by
    show ((r.addExecutionHistory now .failed (some sendErrMsg) none).addExecutionHistory
        now .failed (some sendErrMsg) none).executionHistory.length = _
    rw [addExecutionHistory_length, addExecutionHistory_length]
    omega
  exact ⟨rfl, rfl, rfl, rfl, rfl, rfl, hlen, fun t => rfl⟩

/-- After five consecutive failed calls the fresh telegram breaker is open
with failure count 5 and last failure stamped at the fifth failure time. -/
theorem afterFiveFailures_eq (t1 t2 t3 t4 t5 : Int) :
    afterFiveFailures t1 t2 t3 t4 t5 =
      { threshold := 5
        cooldownMs := 30000
        failureCount := 5
        lastFailureTime := some t5
        state := .open } := rfl

/-- Claim C7 (confirmed): starting closed, five consecutive failures open the
telegram breaker; every call while at most the 30-second cool-down has elapsed
since the last failure fails fast — for either outcome of the wrapped
operation, which is therefore never invoked — and leaves the breaker
unchanged; the first call after the cool-down elapses performs the single
half-open trial: success closes the breaker and resets the count, failure
reopens it and restamps the cool-down at the trial instant. -/
theorem circuit_breaker_open_cooldown_halfopen (t1 t2 t3 t4 t5 : Int) :
    (afterFiveFailures t1 t2 t3 t4 t5).state = .open ∧
    (afterFiveFailures t1 t2 t3 t4 t5).failureCount = 5 ∧
    (afterFiveFailures t1 t2 t3 t4 t5).lastFailureTime = some t5 ∧
    (∀ t b, t - t5 ≤ 30000 →
      (afterFiveFailures t1 t2 t3 t4 t5).execute t b =
        (.failFast, afterFiveFailures t1 t2 t3 t4 t5)) ∧
    (∀ t, t - t5 > 30000 →
      (afterFiveFailures t1 t2 t3 t4 t5).execute t true =
        (.opSuccess,
          { afterFiveFailures t1 t2 t3 t4 t5 with failureCount := 0, state := .closed })) ∧
    (∀ t, t - t5 > 30000 →
      (afterFiveFailures t1 t2 t3 t4 t5).execute t false =
        (.opFailure,
          { afterFiveFailures t1 t2 t3 t4 t5 with
            failureCount := 6, lastFailureTime := some t, state := .open })) := by
  rw [afterFiveFailures_eq]
  refine ⟨rfl, rfl, rfl, ?_, ?_, ?_⟩
  · intro t b ht
    simp [CircuitBreaker.execute, not_lt.mpr ht]
  · intro t ht
    simp [CircuitBreaker.execute, CircuitBreaker.onSuccess, ht]
  · intro t ht
    simp [CircuitBreaker.execute, CircuitBreaker.onFailure, ht]

/-- Witness for the C7 theorem: five failures at instants 0…4, a fail-fast
call inside the cool-down at 15000, and the two half-open trial outcomes just
after the cool-down at 35000. -/
theorem circuit_breaker_witness :
    ((15000 : Int) - 4 ≤ 30000 ∧
      (afterFiveFailures 0 1 2 3 4).execute 15000 true =
        (.failFast, afterFiveFailures 0 1 2 3 4)) ∧
    ((35000 : Int) - 4 > 30000 ∧
      (afterFiveFailures 0 1 2 3 4).execute 35000 true =
        (.opSuccess,
          { afterFiveFailures 0 1 2 3 4 with failureCount := 0, state := .closed }) ∧
      (afterFiveFailures 0 1 2 3 4).execute 35000 false =
        (.opFailure,
          { afterFiveFailures 0 1 2 3 4 with
            failureCount := 6, lastFailureTime := some 35000, state := .open })) :=
  ⟨⟨by decide,
    (circuit_breaker_open_cooldown_halfopen 0 1 2 3 4).2.2.2.1 15000 true (by decide)⟩,
   ⟨by decide,
    (circuit_breaker_open_cooldown_halfopen 0 1 2 3 4).2.2.2.2.1 35000 (by decide),
    (circuit_breaker_open_cooldown_halfopen 0 1 2 3 4).2.2.2.2.2 35000 (by decide)⟩⟩

/-- Claim C8 (counterexample): a 403 (forbidden) edit failure is not a
duplicate-content case, yet `handleEditError` returns failure without sending
any brand-new message — and a 429 failure is retried rather than falling back
— so "any other edit failure falls back to sending a brand-new message" is
false. -/
theorem edit_forbidden_does_not_fall_back :
    handleEditError ⟨some 403, "Forbidden: bot was blocked by the user"⟩ false =
      .reportFailure ∧
    handleEditError ⟨some 429, "Too Many Requests: retry after 1"⟩ false =
      .retryForceEdit ∧
    EditDecision.reportFailure ≠ EditDecision.fallbackToReply := by decide

/-- Claim C8 (amended): before an edit the new content and keyboard are
compared against the current message and the last-sent cache, and an
unchanged, unforced edit is skipped while still reporting success; an API
"message is not modified" 400 error is treated as success; a 403 error
reports failure with no fallback; a 429 error waits and retries the edit
with `forceEdit`; every other error code falls back to sending a brand-new
message. -/
theorem safe_edit_dedup_and_error_policy :
    (∀ c apiErr rOk, c.forceEdit = false →
      normalizeText c.newText = normalizeText c.currentText →
      (c.newMarkup = none ∨ c.newMarkup = some c.currentMarkup) →
      safeEditMessageText c apiErr rOk = .skippedSuccess) ∧
    (∀ e rOk, e.code = some 400 →
      strIncludes e.description "message is not modified" = true →
      handleEditError e rOk = .treatAsSuccess) ∧
    (∀ e rOk, e.code = some 403 → handleEditError e rOk = .reportFailure) ∧
    (∀ e rOk, e.code = some 429 → handleEditError e rOk = .retryForceEdit) ∧
    (∀ e rOk k, e.code = some k → k ≠ 400 → k ≠ 403 → k ≠ 429 →
      handleEditError e rOk = .fallbackToReply) := by
  refine ⟨?_, ?_, ?_, ?_, ?_⟩
  · intro c apiErr rOk hforce htext hmarkup
    rcases hmarkup with hm | hm <;>
      simp [safeEditMessageText, shouldSkipEdit, hforce, htext, hm]
  · intro e rOk hcode hdesc
    simp [handleEditError, hcode, hdesc]
  · intro e rOk hcode
    simp [handleEditError, hcode]
  · intro e rOk hcode
    simp [handleEditError, hcode]
  · intro e rOk k hcode h400 h403 h429
    simp [handleEditError, hcode, h400, h403, h429]

/-- Witness for the amended C8 theorem: a skipped identical edit, a
"not modified" 400 treated as success, and a 500 falling back to a new
message. -/
theorem safe_edit_policy_witness :
    (ctxSame.forceEdit = false ∧
      normalizeText ctxSame.newText = normalizeText ctxSame.currentText ∧
      ctxSame.newMarkup = none ∧
      safeEditMessageText ctxSame (some ⟨some 500, "Internal Server Error"⟩) false =
        .skippedSuccess) ∧
    (strIncludes "Bad Request: message is not modified" "message is not modified" = true ∧
      handleEditError ⟨some 400, "Bad Request: message is not modified"⟩ false =
        .treatAsSuccess) ∧
    handleEditError ⟨some 500, "Internal Server Error"⟩ true = .fallbackToReply :=
  ⟨⟨rfl, by decide, rfl,
      safe_edit_dedup_and_error_policy.1 ctxSame
        (some ⟨some 500, "Internal Server Error"⟩) false rfl (by decide) (Or.inl rfl)⟩,
   ⟨by decide,
      safe_edit_dedup_and_error_policy.2.1 ⟨some 400, "Bad Request: message is not modified"⟩
        false rfl (by decide)⟩,
   safe_edit_dedup_and_error_policy.2.2.2.2 ⟨some 500, "Internal Server Error"⟩ true 500
     rfl (by decide) (by decide) (by decide)⟩
